import Mathlib

set_option linter.unusedVariables false
set_option maxRecDepth 8192

/-!
Verification of the GitGrade repository-context assembly pipeline
(final_app.py): URL parsing, the GitHub resource fetcher, the snapshot
builder and the prompt assembler / model invoker.

HTTP traffic is modelled by passing the responses the network would
return as explicit values (a GitHubNet record and a GeminiEnv record);
the base64-then-UTF-8 decoding step of the content API is modelled by an
explicit decoder function of type String → Option String (none models a
raised decoding exception). Python strings are modelled by String, with
the Python operations url.rstrip, url.split and the substring test
(sub in s) reimplemented over List Char with Python semantics. Python
dicts that the code only reads string fields from are modelled as
association lists (List (String × String)).
-/

/-- Python str.rstrip of the slash character: removes every trailing slash. -/
def pyRstripSlash (s : List Char) : List Char :=
  (s.reverse.dropWhile (fun c => c == '/')).reverse

/-- Python str.split of the slash separator: keeps empty segments, and the
split of the empty string is one empty segment. -/
def pySplitSlash : List Char → List (List Char)
  | [] => [[]]
  | c :: cs =>
    if c == '/' then [] :: pySplitSlash cs
    else
      match pySplitSlash cs with
      | r :: rs => (c :: r) :: rs
      | [] => [[c]]

/-- Does sub occur at the start of s (helper for the Python substring test). -/
def pyStarts : List Char → List Char → Bool
  | [], _ => true
  | _ :: _, [] => false
  | c :: cs, d :: ds => c == d && pyStarts cs ds

/-- Does sub occur somewhere in s (helper for the Python substring test). -/
def pyContains (sub : List Char) : List Char → Bool
  | [] => sub.isEmpty
  | d :: ds => pyStarts sub (d :: ds) || pyContains sub ds

/-- The Python substring test (sub in s) on strings. -/
def pyIn (sub s : String) : Bool :=
  pyContains sub.toList s.toList

/-- Python dict.get(key, default) for a string-valued dict modelled as an
association list. -/
def dictGet (d : List (String × String)) (key dflt : String) : String :=
  match d.lookup key with
  | some v => v
  | none => dflt

/-- parse_github_url (final_app.py, lines 30-40): rstrip the trailing
slashes, split on the slash, fail when fewer than two parts remain, and
otherwise return parts[-2] (the owner) and parts[-1] (the repo). Matching
on the reversed part list is the length-at-least-two guard together with
the two negative indexings; the Python (None, None) return is modelled by
none. -/
def parse_github_url (url : String) : Option (String × String) :=
  match (pySplitSlash (pyRstripSlash url.toList)).reverse with
  | repo :: owner :: _ => some (owner.asString, repo.asString)
  | _ => none

/-- The response of the GitHub content endpoint for one file, with the
fields the code reads: the HTTP status and the base64 payload that
response.json().get('content', '') yields (an absent field is the empty
string). -/
structure ContentResponse where
  status : Nat
  content_b64 : String
deriving Repr

/-- fetch_file_content (final_app.py, lines 42-57): on HTTP 200 decode the
base64 payload as UTF-8 (decoder failure is the caught exception branch),
otherwise report the file as not found or inaccessible. The owner, repo
and token arguments only build the request, which the response models. -/
def fetch_file_content (decode : String → Option String)
    (owner repo file_path : String) (token : Option String)
    (resp : ContentResponse) : String :=
  if resp.status == 200 then
    match decode resp.content_b64 with
    | some t => t
    | none => "Error decoding " ++ file_path ++ " content."
  else
    "File " ++ file_path ++ " not found or inaccessible."

/-- The response of the repository metadata endpoint: the HTTP status and
the JSON body, of which the code reads the string fields message and
default_branch (and stores the whole body in the snapshot). -/
structure MetaResponse where
  status : Nat
  body : List (String × String)
deriving Repr

/-- One entry of the recursive tree response; the code reads item['path']. -/
structure TreeEntry where
  path : String
deriving Repr

/-- The response of the recursive git tree endpoint: the HTTP status and
the list that tree_data.get('tree', []) yields. -/
structure TreeResponse where
  status : Nat
  tree : List TreeEntry
deriving Repr

/-- The GitHub network as observed by one get_repo_structure call: the
metadata response, the tree response as a function of the branch that is
requested, and the content response as a function of the file path. -/
structure GitHubNet where
  metaResp : MetaResponse
  treeResp : String → TreeResponse
  contentResp : String → ContentResponse

/-- The snapshot dict built by get_repo_structure, with its four keys
metadata, structure, readme and dependencies. -/
structure Snapshot where
  metadata : List (String × String)
  structure_ : String
  readme : String
  dependencies : List (String × String)

/-- The error string of the metadata failure branch (final_app.py,
lines 70-72), carrying the HTTP status code and the provider message
field with its Unknown error default. -/
def github_error_message (resp : MetaResponse) : String :=
  "Error: Could not fetch repo. Status Code: " ++ toString resp.status ++
    ". Message: " ++ dictGet resp.body "message" "Unknown error"

/-- The file_structure string (final_app.py, lines 81-85): on a 200 tree
response the newline join of the path of the first 100 tree entries, and
otherwise the initial empty string. -/
def file_structure_of (tree_response : TreeResponse) : String :=
  if tree_response.status == 200 then
    String.intercalate "\n" ((tree_response.tree.take 100).map TreeEntry.path)
  else ""

/-- The readme_content value (final_app.py, lines 87-90): the fetched
README.md content, replaced by the placeholder when it contains
"not found" or "inaccessible". -/
def readme_of (decode : String → Option String) (owner repo : String)
    (token : Option String) (resp : ContentResponse) : String :=
  let readme_content := fetch_file_content decode owner repo "README.md" token resp
  if pyIn "not found" readme_content || pyIn "inaccessible" readme_content then
    "No README.md found."
  else readme_content

/-- The dep_files list of the seven dependency-manifest candidates
(final_app.py, line 94). -/
def dep_files : List String :=
  ["requirements.txt", "package.json", "Pipfile", "pyproject.toml",
   "package-lock.json", "Pipfile.lock", "yarn.lock"]

/-- The dependency-collection loop (final_app.py, lines 96-99) over an
arbitrary candidate list: each file is fetched and kept exactly when its
content contains neither "not found" nor "inaccessible"; insertion order
of the Python dict is the list order. -/
def deps_fold (decode : String → Option String) (owner repo : String)
    (token : Option String) (contentResp : String → ContentResponse)
    (candidates : List String) : List (String × String) :=
  candidates.foldl
    (fun acc file_name =>
      let content := fetch_file_content decode owner repo file_name token (contentResp file_name)
      if !(pyIn "not found" content) && !(pyIn "inaccessible" content) then
        acc ++ [(file_name, content)]
      else acc)
    []

/-- The placeholder entry installed when no dependency file is found
(final_app.py, lines 101-102). -/
def dep_placeholder : String × String :=
  ("status", "No primary dependency file (e.g., requirements.txt, package.json) or lock file found.")

/-- The dependency_content dict (final_app.py, lines 93-102). -/
def dependency_content_of (decode : String → Option String) (owner repo : String)
    (token : Option String) (contentResp : String → ContentResponse) :
    List (String × String) :=
  let dependency_content := deps_fold decode owner repo token contentResp dep_files
  if dependency_content.isEmpty then [dep_placeholder] else dependency_content

/-- get_repo_structure (final_app.py, lines 60-109): a non-200 metadata
response aborts with the error string; otherwise the snapshot is built
from the default branch (fallback main), the tree, the README and the
dependency files, and the Python (value, error) pair of which exactly one
side is None is the returned pair of options. -/
def get_repo_structure (decode : String → Option String) (owner repo : String)
    (token : Option String) (net : GitHubNet) : Option Snapshot × Option String :=
  let response := net.metaResp
  if response.status != 200 then
    (none, some (github_error_message response))
  else
    let repo_data := response.body
    let default_branch := dictGet repo_data "default_branch" "main"
    (some { metadata := repo_data,
            structure_ := file_structure_of (net.treeResp default_branch),
            readme := readme_of decode owner repo token (net.contentResp "README.md"),
            dependencies := dependency_content_of decode owner repo token net.contentResp },
     none)

/-- The single-quote character, used by the Python repr of a dict. -/
def pySQuote : String := String.singleton (Char.ofNat 39)

/-- The rendering of the metadata dict when it is interpolated into the
f-string prompt: the Python str of a string-valued dict. -/
def pyDictRepr (d : List (String × String)) : String :=
  "\x7b" ++
    String.intercalate ", " (d.map (fun p => pySQuote ++ p.1 ++ pySQuote ++ ": " ++ pySQuote ++ p.2 ++ pySQuote)) ++
    "\x7d"

/-- The dep_summary string (final_app.py, lines 120-122): the dependency
mapping rendered as a double-newline-joined sequence of
"--- filename ---" then content blocks. -/
def dep_summary (repo_data : Snapshot) : String :=
  String.intercalate "\n\n"
    (repo_data.dependencies.map (fun p => "--- " ++ p.1 ++ " ---\n" ++ p.2))

/-- The prompt f-string (final_app.py, lines 125-162), with the four
interpolations replaced by explicit concatenation. -/
def build_prompt (repo_data : Snapshot) : String :=
  "\n    You are a strict Senior Developer Mentor acting as an AI engine for \"GitGrade\".\n" ++
  "    Your task is to evaluate a GitHub repository based on the following inputs:\n    \n" ++
  "    1. **Repository Metadata**: " ++ pyDictRepr repo_data.metadata ++ "\n" ++
  "    2. **File Structure**: \n    " ++ repo_data.structure_ ++ "\n" ++
  "    3. **README Content**: \n    " ++ repo_data.readme ++ "\n" ++
  "    4. **Dependency Files Content**:\n    " ++ dep_summary repo_data ++ "\n\n" ++
  "    **Evaluation Criteria:**\n" ++
  "    - **Code Quality & Organization:** Look for clean folder structures (src, tests, docs), separation of concerns.\n" ++
  "    - **Documentation:** Is the README clear? Does it have setup instructions?\n" ++
  "    - **Best Practices:** Presence of .gitignore, LICENSE, CI/CD workflows, test folders.\n" ++
  "    - **Dependency Health (CRITICAL):** Analyze the provided dependency content (or lack thereof) for:\n" ++
  "        a) **Security Risk:** Are common packages severely outdated? (Infer potential CVEs if versions are very old).\n" ++
  "        b) **Maintainability:** Is a lock file (e.g., package-lock.json, Pipfile.lock) present? (Crucial for reproducible builds).\n" ++
  "        c) **Clarity:** Are dependencies specified without version pinning? (Bad practice).\n\n" ++
  "    **Output Requirement:**\n" ++
  "    Provide the response in the following specific format:\n\n" ++
  "    ### SCORE\n" ++
  "    [Provide a score out of 100 based on the quality. Be honest and critical.]\n\n" ++
  "    ### CRITICAL INSIGHTS\n" ++
  "    [A 2-3 sentence section dedicated ONLY to Dependency Health and Security Risk. Be direct.]\n\n" ++
  "    ### SUMMARY\n" ++
  "    [A short paragraph (approx 50 words) evaluating the strengths and weaknesses of the overall project, including the Dependency Health findings.]\n\n" ++
  "    ### ROADMAP\n" ++
  "    [Bulleted list of 3-5 actionable steps the student must take to improve this project. Include at least two specific actions related to Dependency Health (e.g., pinning versions, adding a lock file, or updating a specific package).]\n    \n" ++
  "    Do not be polite just for the sake of it. Give honest, constructive feedback.\n    "

/-- The generative-model library as observed by one analyze_with_gemini
call: configuring plus loading the model either raises (some message) or
succeeds, and generating from a prompt either raises or returns text. -/
structure GeminiEnv where
  configure : String → String → Option String
  generate : String → Except String String

/-- analyze_with_gemini (final_app.py, lines 111-168): a configuration or
model-loading exception is caught and rendered as an error string, the
prompt is built and the model invoked, and a generation exception is
likewise caught; a successful response text is returned verbatim. -/
def analyze_with_gemini (env : GeminiEnv) (repo_data : Snapshot)
    (api_key model_name : String) : String :=
  match env.configure api_key model_name with
  | some e => "Error configuring Gemini API or loading model: " ++ e
  | none =>
    match env.generate (build_prompt repo_data) with
    | Except.ok t => t
    | Except.error e => "Error generating content: " ++ e

/-- The identity decoder: every payload decodes to itself. -/
def decodeId : String → Option String := fun s => some s

/-- The always-failing decoder: every decode attempt raises. -/
def decodeFail : String → Option String := fun _ => none

/-- A network whose metadata call fails with a 404 and a message field. -/
def netFail404 : GitHubNet :=
  { metaResp := { status := 404, body := [("message", "Not Found")] },
    treeResp := fun _ => { status := 404, tree := [] },
    contentResp := fun _ => { status := 404, content_b64 := "" } }

/-- A healthy network: metadata 200 with a dev default branch, a tree on
that branch, a README that decodes to hello, and no dependency files. -/
def netOk : GitHubNet :=
  { metaResp := { status := 200,
                  body := [("default_branch", "dev"), ("stargazers_count", "5")] },
    treeResp := fun b =>
      if b == "dev" then { status := 200, tree := [{ path := "README.md" }, { path := "src/app.py" }] }
      else { status := 404, tree := [] },
    contentResp := fun f =>
      if f == "README.md" then { status := 200, content_b64 := "hello" }
      else { status := 404, content_b64 := "" } }

/-- A network whose metadata call succeeds but whose content payloads all
fail to decode (used with decodeFail). -/
def netDecodeFail : GitHubNet :=
  { metaResp := { status := 200, body := [] },
    treeResp := fun _ => { status := 404, tree := [] },
    contentResp := fun _ => { status := 200, content_b64 := "xyz" } }

/-- A network whose README and package.json decode to genuine content that
happens to contain the absence sentinels. -/
def netSentinel : GitHubNet :=
  { metaResp := { status := 200, body := [] },
    treeResp := fun _ => { status := 404, tree := [] },
    contentResp := fun f =>
      if f == "README.md" then { status := 200, content_b64 := "the data is not found here" }
      else if f == "package.json" then { status := 200, content_b64 := "currently inaccessible data" }
      else { status := 404, content_b64 := "" } }

/-- A network where the metadata call succeeds but every secondary call
fails: the tree endpoint returns 500 and every content endpoint 404. -/
def netDegraded : GitHubNet :=
  { metaResp := { status := 200, body := [("default_branch", "main")] },
    treeResp := fun _ => { status := 500, tree := [] },
    contentResp := fun _ => { status := 404, content_b64 := "" } }

/-- A network whose tree response holds 250 entries. -/
def netBigTree : GitHubNet :=
  { metaResp := { status := 200, body := [] },
    treeResp := fun _ => { status := 200, tree := List.replicate 250 { path := "file.py" } },
    contentResp := fun _ => { status := 404, content_b64 := "" } }

/-- A model environment where configuration succeeds and generation
returns a fixed text. -/
def envOk : GeminiEnv :=
  { configure := fun _ _ => none,
    generate := fun _ => Except.ok "### SCORE\n80" }

/-- A model environment where configuration raises. -/
def envBad : GeminiEnv :=
  { configure := fun _ _ => some "bad key",
    generate := fun _ => Except.error "unreachable" }

/-- A model environment where configuration succeeds and generation raises. -/
def envGenFail : GeminiEnv :=
  { configure := fun _ _ => none,
    generate := fun _ => Except.error "boom" }

/-- A small concrete snapshot for exercising the prompt assembler. -/
def snapDemo : Snapshot :=
  { metadata := [("stargazers_count", "5")],
    structure_ := "README.md\nsrc/app.py",
    readme := "hello",
    dependencies := [("package.json", "pkg")] }

/-! ### Helper lemmas -/

theorem toList_append (s t : String) : (s ++ t).toList = s.toList ++ t.toList := by
  simp [String.toList, String.data_append]

theorem pyStarts_append_self : ∀ (l b : List Char), pyStarts l (l ++ b) = true := by
  intro l
  induction l with
  | nil => intro b; rfl
  | cons c cs ih => intro b; simp [pyStarts, ih]

theorem pyContains_self_append (l b : List Char) : pyContains l (l ++ b) = true := by
  cases l with
  | nil => cases b <;> simp [pyContains, pyStarts, List.isEmpty]
  | cons c cs =>
    have := pyStarts_append_self (c :: cs) b
    simp only [List.cons_append] at this ⊢
    simp [pyContains, this]

theorem pyContains_append_of_right (a : List Char) {sub b : List Char}
    (h : pyContains sub b = true) : pyContains sub (a ++ b) = true := by
  induction a with
  | nil => simpa using h
  | cons d ds ih => simp [pyContains, ih]

theorem get_repo_structure_eq_success (decode : String → Option String)
    (owner repo : String) (token : Option String) (net : GitHubNet)
    (h : net.metaResp.status = 200) :
    get_repo_structure decode owner repo token net =
      (some { metadata := net.metaResp.body,
              structure_ := file_structure_of
                (net.treeResp (dictGet net.metaResp.body "default_branch" "main")),
              readme := readme_of decode owner repo token (net.contentResp "README.md"),
              dependencies := dependency_content_of decode owner repo token net.contentResp },
       none) := by
  have hb : (net.metaResp.status != 200) = false := by simp [h]
  simp [get_repo_structure, hb]

theorem get_repo_structure_eq_failure (decode : String → Option String)
    (owner repo : String) (token : Option String) (net : GitHubNet)
    (h : net.metaResp.status ≠ 200) :
    get_repo_structure decode owner repo token net =
      (none, some (github_error_message net.metaResp)) := by
  have hb : (net.metaResp.status != 200) = true := by simpa using h
  simp [get_repo_structure, hb]

/-! ### C6: fetch_file_content on success and on non-200 responses -/

/-- C6: on a 200 response whose payload decodes, fetch_file_content returns
the decoded text exactly; on any non-200 response it returns the absence
indicator string, which always contains the sentinel substring not found;
it is a total function, so no exception escapes. -/
theorem fetch_file_content_success_and_absence (decode : String → Option String)
    (owner repo file_path : String) (token : Option String) (resp : ContentResponse) :
    (resp.status = 200 → ∀ t, decode resp.content_b64 = some t →
        fetch_file_content decode owner repo file_path token resp = t)
    ∧ (resp.status ≠ 200 →
        fetch_file_content decode owner repo file_path token resp =
          "File " ++ file_path ++ " not found or inaccessible."
        ∧ pyIn "not found" (fetch_file_content decode owner repo file_path token resp) = true) := by
  constructor
  · intro h t ht
    simp [fetch_file_content, h, ht]
  · intro h
    have hb : (resp.status == 200) = false := by simpa using h
    have heq : fetch_file_content decode owner repo file_path token resp =
        "File " ++ file_path ++ " not found or inaccessible." := by
      simp [fetch_file_content, hb]
    refine ⟨heq, ?_⟩
    rw [heq]
    show pyContains _ _ = true
    rw [toList_append]
    exact pyContains_append_of_right _ (by decide)

/-- C6 witness: the theorem at a decoding 200 response and at a 404. -/
theorem fetch_file_content_success_and_absence_witness :
    fetch_file_content decodeId "alice" "proj" "README.md" none
        { status := 200, content_b64 := "hello" } = "hello"
    ∧ fetch_file_content decodeId "alice" "proj" "README.md" none
        { status := 404, content_b64 := "" } =
      "File " ++ "README.md" ++ " not found or inaccessible." :=
  ⟨(fetch_file_content_success_and_absence decodeId "alice" "proj" "README.md" none
      { status := 200, content_b64 := "hello" }).1 rfl "hello" rfl,
   ((fetch_file_content_success_and_absence decodeId "alice" "proj" "README.md" none
      { status := 404, content_b64 := "" }).2 (by decide)).1⟩

/-! ### C1: only the metadata fetch can abort the snapshot build -/

/-- C1: get_repo_structure returns an error exactly when the metadata
status is not 200; the error string carries the status code and the
provider message field (with its Unknown error default); a failing tree
fetch still yields a snapshot with an empty file list, and a failing
README fetch still yields a snapshot with the README placeholder. -/
theorem get_repo_structure_error_iff_meta (decode : String → Option String)
    (owner repo : String) (token : Option String) (net : GitHubNet) :
    ((get_repo_structure decode owner repo token net).2.isSome = true ↔
      net.metaResp.status ≠ 200)
    ∧ (net.metaResp.status ≠ 200 →
        (get_repo_structure decode owner repo token net).2 =
          some ("Error: Could not fetch repo. Status Code: " ++ toString net.metaResp.status ++
            ". Message: " ++ dictGet net.metaResp.body "message" "Unknown error"))
    ∧ (net.metaResp.status = 200 →
        (net.treeResp (dictGet net.metaResp.body "default_branch" "main")).status ≠ 200 →
        ∃ snap, (get_repo_structure decode owner repo token net).1 = some snap ∧
          snap.structure_ = "")
    ∧ (net.metaResp.status = 200 → (net.contentResp "README.md").status ≠ 200 →
        ∃ snap, (get_repo_structure decode owner repo token net).1 = some snap ∧
          snap.readme = "No README.md found.") := by
  refine ⟨?_, ?_, ?_, ?_⟩
  · by_cases h : net.metaResp.status = 200
    · rw [get_repo_structure_eq_success decode owner repo token net h]
      simpa using h
    · rw [get_repo_structure_eq_failure decode owner repo token net h]
      simpa using h
  · intro h
    rw [get_repo_structure_eq_failure decode owner repo token net h]
    simp [github_error_message]
  · intro h htree
    rw [get_repo_structure_eq_success decode owner repo token net h]
    refine ⟨_, rfl, ?_⟩
    have hb : ((net.treeResp (dictGet net.metaResp.body "default_branch" "main")).status == 200)
        = false := by simpa using htree
    simp [file_structure_of, hb]
  · intro h hread
    rw [get_repo_structure_eq_success decode owner repo token net h]
    refine ⟨_, rfl, ?_⟩
    have hb : ((net.contentResp "README.md").status == 200) = false := by simpa using hread
    simp only [readme_of, fetch_file_content, hb, Bool.false_eq_true, if_false]
    decide

/-- C1 witness: the theorem at a 404 metadata response, and at a healthy
metadata response whose tree call returns 500 and whose README call 404. -/
theorem get_repo_structure_error_iff_meta_witness :
    (get_repo_structure decodeId "alice" "proj" none netFail404).2 =
      some ("Error: Could not fetch repo. Status Code: " ++ toString netFail404.metaResp.status ++
        ". Message: " ++ dictGet netFail404.metaResp.body "message" "Unknown error")
    ∧ (∃ snap, (get_repo_structure decodeId "alice" "proj" none netDegraded).1 = some snap ∧
        snap.structure_ = "")
    ∧ (∃ snap, (get_repo_structure decodeId "alice" "proj" none netDegraded).1 = some snap ∧
        snap.readme = "No README.md found.") :=
  ⟨(get_repo_structure_error_iff_meta decodeId "alice" "proj" none netFail404).2.1 (by decide),
   (get_repo_structure_error_iff_meta decodeId "alice" "proj" none netDegraded).2.2.1
      (by decide) (by decide),
   (get_repo_structure_error_iff_meta decodeId "alice" "proj" none netDegraded).2.2.2
      (by decide) (by decide)⟩

/-! ### C10: the returned pair has exactly one None component -/

/-- C10: get_repo_structure always returns a pair of which exactly one
component is present: on the error path the snapshot is none and the error
is some, and on the success path the error is none and the snapshot is the
record with its four fields metadata, structure, readme and dependencies. -/
theorem get_repo_structure_option_pair (decode : String → Option String)
    (owner repo : String) (token : Option String) (net : GitHubNet) :
    ((∃ snap, (get_repo_structure decode owner repo token net).1 = some snap) ↔
      (get_repo_structure decode owner repo token net).2 = none)
    ∧ (net.metaResp.status ≠ 200 →
        (get_repo_structure decode owner repo token net).1 = none ∧
        (get_repo_structure decode owner repo token net).2 =
          some (github_error_message net.metaResp))
    ∧ (net.metaResp.status = 200 →
        (get_repo_structure decode owner repo token net).2 = none ∧
        (get_repo_structure decode owner repo token net).1 =
          some { metadata := net.metaResp.body,
                 structure_ := file_structure_of
                   (net.treeResp (dictGet net.metaResp.body "default_branch" "main")),
                 readme := readme_of decode owner repo token (net.contentResp "README.md"),
                 dependencies := dependency_content_of decode owner repo token net.contentResp }) := by
  refine ⟨?_, ?_, ?_⟩
  · by_cases h : net.metaResp.status = 200
    · rw [get_repo_structure_eq_success decode owner repo token net h]
      simp
    · rw [get_repo_structure_eq_failure decode owner repo token net h]
      simp
  · intro h
    rw [get_repo_structure_eq_failure decode owner repo token net h]
    exact ⟨rfl, rfl⟩
  · intro h
    rw [get_repo_structure_eq_success decode owner repo token net h]
    exact ⟨rfl, rfl⟩

/-- C10 witness: the theorem at a failing and at a succeeding metadata
response. -/
theorem get_repo_structure_option_pair_witness :
    ((get_repo_structure decodeId "alice" "proj" none netFail404).1 = none ∧
      (get_repo_structure decodeId "alice" "proj" none netFail404).2 =
        some (github_error_message netFail404.metaResp))
    ∧ ((get_repo_structure decodeId "alice" "proj" none netOk).2 = none ∧
      (get_repo_structure decodeId "alice" "proj" none netOk).1 =
        some { metadata := netOk.metaResp.body,
               structure_ := file_structure_of
                 (netOk.treeResp (dictGet netOk.metaResp.body "default_branch" "main")),
               readme := readme_of decodeId "alice" "proj" none (netOk.contentResp "README.md"),
               dependencies := dependency_content_of decodeId "alice" "proj" none netOk.contentResp }) :=
  ⟨(get_repo_structure_option_pair decodeId "alice" "proj" none netFail404).2.1 (by decide),
   (get_repo_structure_option_pair decodeId "alice" "proj" none netOk).2.2 (by decide)⟩

/-! ### C7: the default-branch field selects the tree, with fallback main -/

/-- C7: after a successful metadata fetch the tree is fetched on the
branch named by the default_branch field of the metadata, and on the
branch main exactly when that field is absent. -/
theorem get_repo_structure_branch_fallback (decode : String → Option String)
    (owner repo : String) (token : Option String) (net : GitHubNet)
    (h : net.metaResp.status = 200) :
    (net.metaResp.body.lookup "default_branch" = none →
      ∃ snap, (get_repo_structure decode owner repo token net).1 = some snap ∧
        snap.structure_ = file_structure_of (net.treeResp "main"))
    ∧ (∀ b, net.metaResp.body.lookup "default_branch" = some b →
      ∃ snap, (get_repo_structure decode owner repo token net).1 = some snap ∧
        snap.structure_ = file_structure_of (net.treeResp b)) := by
  constructor
  · intro hnone
    rw [get_repo_structure_eq_success decode owner repo token net h]
    exact ⟨_, rfl, by simp [dictGet, hnone]⟩
  · intro b hb
    rw [get_repo_structure_eq_success decode owner repo token net h]
    exact ⟨_, rfl, by simp [dictGet, hb]⟩

/-- C7 witness: the theorem at a metadata body without a default_branch
field, and at one whose default_branch is dev. -/
theorem get_repo_structure_branch_fallback_witness :
    (∃ snap, (get_repo_structure decodeId "alice" "proj" none netSentinel).1 = some snap ∧
      snap.structure_ = file_structure_of (netSentinel.treeResp "main"))
    ∧ (∃ snap, (get_repo_structure decodeId "alice" "proj" none netOk).1 = some snap ∧
      snap.structure_ = file_structure_of (netOk.treeResp "dev")) :=
  ⟨(get_repo_structure_branch_fallback decodeId "alice" "proj" none netSentinel (by decide)).1
      (by decide),
   (get_repo_structure_branch_fallback decodeId "alice" "proj" none netOk (by decide)).2
      "dev" (by decide)⟩

/-! ### C5: file-list truncation to the first 100 tree entries -/

/-- C5: on a 200 tree response the snapshot file list is the newline join
of the path of each entry truncated to the first 100 in response order (a
250-entry response yields exactly 100 paths); on a failing tree response
the file list is empty rather than an error. -/
theorem get_repo_structure_file_list_trunc (decode : String → Option String)
    (owner repo : String) (token : Option String) (net : GitHubNet)
    (h : net.metaResp.status = 200) :
    ((net.treeResp (dictGet net.metaResp.body "default_branch" "main")).status = 200 →
      ∃ snap, (get_repo_structure decode owner repo token net).1 = some snap ∧
        snap.structure_ = String.intercalate "\n"
          (((net.treeResp (dictGet net.metaResp.body "default_branch" "main")).tree.map
              TreeEntry.path).take 100) ∧
        ((net.treeResp (dictGet net.metaResp.body "default_branch" "main")).tree.length = 250 →
          (((net.treeResp (dictGet net.metaResp.body "default_branch" "main")).tree.map
              TreeEntry.path).take 100).length = 100))
    ∧ ((net.treeResp (dictGet net.metaResp.body "default_branch" "main")).status ≠ 200 →
      ∃ snap, (get_repo_structure decode owner repo token net).1 = some snap ∧
        snap.structure_ = "") := by
  constructor
  · intro htree
    rw [get_repo_structure_eq_success decode owner repo token net h]
    refine ⟨_, rfl, ?_, ?_⟩
    · have hb : ((net.treeResp (dictGet net.metaResp.body "default_branch" "main")).status == 200)
          = true := by simpa using htree
      simp [file_structure_of, hb, List.map_take]
    · intro hlen
      simp [List.length_take, List.length_map, hlen]
  · intro htree
    rw [get_repo_structure_eq_success decode owner repo token net h]
    refine ⟨_, rfl, ?_⟩
    have hb : ((net.treeResp (dictGet net.metaResp.body "default_branch" "main")).status == 200)
        = false := by simpa using htree
    simp [file_structure_of, hb]

/-- C5 witness: the theorem at a 250-entry tree response, with the length
premise discharged, and at a failing tree response. -/
theorem get_repo_structure_file_list_trunc_witness :
    (∃ snap, (get_repo_structure decodeId "alice" "proj" none netBigTree).1 = some snap ∧
      snap.structure_ = String.intercalate "\n"
        (((netBigTree.treeResp (dictGet netBigTree.metaResp.body "default_branch" "main")).tree.map
            TreeEntry.path).take 100) ∧
      (((netBigTree.treeResp (dictGet netBigTree.metaResp.body "default_branch" "main")).tree.map
          TreeEntry.path).take 100).length = 100)
    ∧ (∃ snap, (get_repo_structure decodeId "alice" "proj" none netDegraded).1 = some snap ∧
      snap.structure_ = "") := by
  constructor
  · obtain ⟨snap, h1, h2, h3⟩ :=
      (get_repo_structure_file_list_trunc decodeId "alice" "proj" none netBigTree (by decide)).1
        (by decide)
    exact ⟨snap, h1, h2, h3 (by decide)⟩
  · exact (get_repo_structure_file_list_trunc decodeId "alice" "proj" none netDegraded
      (by decide)).2 (by decide)

/-! ### C4: the dependency mapping -/

theorem list_foldl_keep {α β : Type} (p : α → Bool) (v : α → β) (l : List α) :
    ∀ acc : List β,
      l.foldl (fun a x => if p x then a ++ [v x] else a) acc =
        acc ++ l.filterMap (fun x => if p x then some (v x) else none) := by
  induction l with
  | nil => intro acc; simp
  | cons x xs ih =>
    intro acc
    by_cases hx : p x <;> simp [hx, ih, List.filterMap_cons]

theorem deps_fold_eq_filterMap (decode : String → Option String) (owner repo : String)
    (token : Option String) (contentResp : String → ContentResponse)
    (candidates : List String) :
    deps_fold decode owner repo token contentResp candidates =
      candidates.filterMap (fun file_name =>
        let content := fetch_file_content decode owner repo file_name token (contentResp file_name)
        if !(pyIn "not found" content) && !(pyIn "inaccessible" content) then
          some (file_name, content)
        else none) := by
  have h := list_foldl_keep
    (fun file_name =>
      !(pyIn "not found" (fetch_file_content decode owner repo file_name token (contentResp file_name)))
        && !(pyIn "inaccessible" (fetch_file_content decode owner repo file_name token (contentResp file_name))))
    (fun file_name =>
      (file_name, fetch_file_content decode owner repo file_name token (contentResp file_name)))
    candidates []
  simpa [deps_fold] using h

/-- C4: after a successful metadata fetch the dependency mapping is the
filter of the seven candidate manifests, each fetched independently and
kept exactly when its content lacks both absence sentinels; a not-found
candidate is no error (the error component stays none), and the mapping is
never empty: when nothing is found it is exactly the one placeholder
entry. -/
theorem get_repo_structure_dependency_mapping (decode : String → Option String)
    (owner repo : String) (token : Option String) (net : GitHubNet)
    (h : net.metaResp.status = 200) :
    ∃ snap, (get_repo_structure decode owner repo token net).1 = some snap ∧
      (get_repo_structure decode owner repo token net).2 = none ∧
      snap.dependencies =
        (if (dep_files.filterMap (fun file_name =>
            let content := fetch_file_content decode owner repo file_name token (net.contentResp file_name)
            if !(pyIn "not found" content) && !(pyIn "inaccessible" content) then
              some (file_name, content)
            else none)).isEmpty then
          [dep_placeholder]
        else
          dep_files.filterMap (fun file_name =>
            let content := fetch_file_content decode owner repo file_name token (net.contentResp file_name)
            if !(pyIn "not found" content) && !(pyIn "inaccessible" content) then
              some (file_name, content)
            else none)) ∧
      snap.dependencies ≠ [] := by
  rw [get_repo_structure_eq_success decode owner repo token net h]
  refine ⟨_, rfl, rfl, ?_, ?_⟩
  · simp [dependency_content_of, deps_fold_eq_filterMap]
  · simp only [dependency_content_of, deps_fold_eq_filterMap]
    rcases hd : dep_files.filterMap (fun file_name =>
        let content := fetch_file_content decode owner repo file_name token (net.contentResp file_name)
        if !(pyIn "not found" content) && !(pyIn "inaccessible" content) then
          some (file_name, content)
        else none) with _ | ⟨x, xs⟩
    · simp
    · simp

/-- C4 witness: the theorem at a network without any dependency manifest,
where the mapping is the single placeholder entry. -/
theorem get_repo_structure_dependency_mapping_witness :
    ∃ snap, (get_repo_structure decodeId "alice" "proj" none netOk).1 = some snap ∧
      snap.dependencies ≠ [] := by
  obtain ⟨snap, h1, _, _, h4⟩ :=
    get_repo_structure_dependency_mapping decodeId "alice" "proj" none netOk (by decide)
  exact ⟨snap, h1, h4⟩

/-! ### C9: genuine content holding a sentinel substring is misclassified -/

theorem lookup_filterMap_keyed_none {α β : Type} [BEq α] [LawfulBEq α]
    (g : α → Option (α × β)) (hkey : ∀ x p, g x = some p → p.1 = x)
    (f : α) (hf : g f = none) :
    ∀ l : List α, (l.filterMap g).lookup f = none := by
  intro l
  induction l with
  | nil => simp
  | cons x xs ih =>
    rcases hgx : g x with _ | p
    · simpa [List.filterMap_cons, hgx] using ih
    · have hx : p.1 = x := hkey x p hgx
      have hxf : ¬ f = x := by
        rintro rfl
        rw [hf] at hgx
        cases hgx
      have hb : (f == x) = false := beq_eq_false_iff_ne.mpr hxf
      cases p with
      | mk k c =>
        simp only at hx
        subst hx
        simp [List.filterMap_cons, hgx, List.lookup, hb, ih]

/-- C9: when a file is fetched with a 200 status and its payload decodes
to genuine content that contains the substring not found or inaccessible,
the builder misclassifies it as absent: such a README is replaced by the
placeholder, and such a dependency manifest is omitted from the mapping. -/
theorem get_repo_structure_sentinel_misclassified (decode : String → Option String)
    (owner repo : String) (token : Option String) (net : GitHubNet)
    (h : net.metaResp.status = 200) :
    ((net.contentResp "README.md").status = 200 →
      ∀ t, decode (net.contentResp "README.md").content_b64 = some t →
        (pyIn "not found" t = true ∨ pyIn "inaccessible" t = true) →
        ∃ snap, (get_repo_structure decode owner repo token net).1 = some snap ∧
          snap.readme = "No README.md found.")
    ∧ (∀ f, f ∈ dep_files → (net.contentResp f).status = 200 →
        ∀ t, decode (net.contentResp f).content_b64 = some t →
          (pyIn "not found" t = true ∨ pyIn "inaccessible" t = true) →
          ∃ snap, (get_repo_structure decode owner repo token net).1 = some snap ∧
            snap.dependencies.lookup f = none) := by
  constructor
  · intro hst t ht hsent
    rw [get_repo_structure_eq_success decode owner repo token net h]
    refine ⟨_, rfl, ?_⟩
    have hfetch : fetch_file_content decode owner repo "README.md" token
        (net.contentResp "README.md") = t := by
      simp [fetch_file_content, hst, ht]
    have hcond : (pyIn "not found" t || pyIn "inaccessible" t) = true := by
      rcases hsent with h1 | h1 <;> simp [h1]
    simp [readme_of, hfetch, hcond]
  · intro f hf hst t ht hsent
    rw [get_repo_structure_eq_success decode owner repo token net h]
    refine ⟨_, rfl, ?_⟩
    have hfetch : fetch_file_content decode owner repo f token (net.contentResp f) = t := by
      simp [fetch_file_content, hst, ht]
    have hcond : (!(pyIn "not found" t) && !(pyIn "inaccessible" t)) = false := by
      rcases hsent with h1 | h1 <;> simp [h1]
    simp only [dependency_content_of, deps_fold_eq_filterMap]
    have hgf : (fun file_name =>
        let content := fetch_file_content decode owner repo file_name token (net.contentResp file_name)
        if !(pyIn "not found" content) && !(pyIn "inaccessible" content) then
          some (file_name, content)
        else none) f = none := by
      simp only [hfetch, hcond]
      simp
    rcases hd : dep_files.filterMap (fun file_name =>
        let content := fetch_file_content decode owner repo file_name token (net.contentResp file_name)
        if !(pyIn "not found" content) && !(pyIn "inaccessible" content) then
          some (file_name, content)
        else none) with _ | ⟨x, xs⟩
    · have hstatus : ¬ f = "status" := by
        have : ∀ g ∈ dep_files, ¬ g = "status" := by decide
        exact this f hf
      simp [dep_placeholder, List.lookup, beq_eq_false_iff_ne.mpr hstatus]
    · have := lookup_filterMap_keyed_none
        (fun file_name =>
          let content := fetch_file_content decode owner repo file_name token (net.contentResp file_name)
          if !(pyIn "not found" content) && !(pyIn "inaccessible" content) then
            some (file_name, content)
          else none)
        (by
          intro x p hp
          simp only at hp
          split at hp
          · cases hp; rfl
          · cases hp)
        f hgf dep_files
      rw [hd] at this
      simpa using this

/-- C9 witness: the theorem at a network whose README genuinely contains
not found and whose package.json genuinely contains inaccessible. -/
theorem get_repo_structure_sentinel_misclassified_witness :
    (∃ snap, (get_repo_structure decodeId "alice" "proj" none netSentinel).1 = some snap ∧
      snap.readme = "No README.md found.")
    ∧ (∃ snap, (get_repo_structure decodeId "alice" "proj" none netSentinel).1 = some snap ∧
      snap.dependencies.lookup "package.json" = none) :=
  ⟨(get_repo_structure_sentinel_misclassified decodeId "alice" "proj" none netSentinel
      (by decide)).1 (by decide) "the data is not found here" (by decide)
      (Or.inl (by decide)),
   (get_repo_structure_sentinel_misclassified decodeId "alice" "proj" none netSentinel
      (by decide)).2 "package.json" (by decide) (by decide) "currently inaccessible data"
      (by decide) (Or.inr (by decide))⟩

/-! ### C3: decode failure is NOT classified as absent (claim corrected) -/

/-- C3 counterexample: on a 200 response whose payload fails to decode,
fetch_file_content returns the string Error decoding README.md content.,
which contains neither not found nor inaccessible, and the snapshot
builder therefore treats it as found content: the README keeps the error
string instead of the placeholder, and a dependency manifest whose decode
fails is included in the mapping rather than omitted. -/
theorem fetch_decode_failure_classified_found :
    fetch_file_content decodeFail "alice" "proj" "README.md" none
        { status := 200, content_b64 := "xyz" } = "Error decoding README.md content."
    ∧ pyIn "not found" "Error decoding README.md content." = false
    ∧ pyIn "inaccessible" "Error decoding README.md content." = false
    ∧ ((get_repo_structure decodeFail "alice" "proj" none netDecodeFail).1.map Snapshot.readme)
        = some "Error decoding README.md content."
    ∧ ((get_repo_structure decodeFail "alice" "proj" none netDecodeFail).1.map
        (fun snap => snap.dependencies.lookup "package.json"))
        = some (some "Error decoding package.json content.") := by
  decide

/-- C3 as amended: on a 200 response whose payload fails to decode,
fetch_file_content returns the sentinel Error decoding filename content.,
and because that string contains neither not found nor inaccessible the
snapshot builder treats the decode failure as found content: the README
field keeps the error string. -/
theorem fetch_decode_failure_error_string (decode : String → Option String)
    (owner repo file_path : String) (token : Option String)
    (resp : ContentResponse) (net : GitHubNet) :
    (resp.status = 200 → decode resp.content_b64 = none →
      fetch_file_content decode owner repo file_path token resp =
        "Error decoding " ++ file_path ++ " content.")
    ∧ (net.metaResp.status = 200 → (net.contentResp "README.md").status = 200 →
        decode (net.contentResp "README.md").content_b64 = none →
        ∃ snap, (get_repo_structure decode owner repo token net).1 = some snap ∧
          snap.readme = "Error decoding README.md content.") := by
  constructor
  · intro h hd
    simp [fetch_file_content, h, hd]
  · intro h hst hd
    rw [get_repo_structure_eq_success decode owner repo token net h]
    refine ⟨_, rfl, ?_⟩
    have hfetch : fetch_file_content decode owner repo "README.md" token
        (net.contentResp "README.md") = "Error decoding README.md content." := by
      simp [fetch_file_content, hst, hd]
    have hcond : (pyIn "not found" "Error decoding README.md content."
        || pyIn "inaccessible" "Error decoding README.md content.") = false := by decide
    simp [readme_of, hfetch, hcond]

/-- C3 witness: the amended theorem at the always-failing decoder. -/
theorem fetch_decode_failure_error_string_witness :
    fetch_file_content decodeFail "alice" "proj" "requirements.txt" none
        { status := 200, content_b64 := "xyz" } =
      "Error decoding " ++ "requirements.txt" ++ " content."
    ∧ (∃ snap, (get_repo_structure decodeFail "alice" "proj" none netDecodeFail).1 = some snap ∧
        snap.readme = "Error decoding README.md content.") :=
  ⟨(fetch_decode_failure_error_string decodeFail "alice" "proj" "requirements.txt" none
      { status := 200, content_b64 := "xyz" } netDecodeFail).1 rfl rfl,
   (fetch_decode_failure_error_string decodeFail "alice" "proj" "README.md" none
      { status := 200, content_b64 := "xyz" } netDecodeFail).2 (by decide) (by decide) rfl⟩

/-! ### C8: the prompt assembler and model invoker -/

/-- C8: analyze_with_gemini returns the generated text verbatim when
configuration and generation succeed, returns a descriptive error string
when either raises (it is a total function, so nothing propagates), and
the prompt it hands to the model renders the dependency mapping as
double-newline-separated blocks of --- filename --- followed by the
content. -/
theorem analyze_with_gemini_contract (env : GeminiEnv) (repo_data : Snapshot)
    (api_key model_name : String) :
    (∀ e, env.configure api_key model_name = some e →
        analyze_with_gemini env repo_data api_key model_name =
          "Error configuring Gemini API or loading model: " ++ e)
    ∧ (env.configure api_key model_name = none →
        (∀ t, env.generate (build_prompt repo_data) = Except.ok t →
            analyze_with_gemini env repo_data api_key model_name = t)
        ∧ (∀ e, env.generate (build_prompt repo_data) = Except.error e →
            analyze_with_gemini env repo_data api_key model_name =
              "Error generating content: " ++ e))
    ∧ dep_summary repo_data =
        String.intercalate "\n\n"
          (repo_data.dependencies.map (fun p => "--- " ++ p.1 ++ " ---\n" ++ p.2))
    ∧ ∃ pre post, build_prompt repo_data = pre ++ (dep_summary repo_data ++ post) := by
  refine ⟨?_, ?_, rfl, ?_⟩
  · intro e he
    simp [analyze_with_gemini, he]
  · intro hc
    constructor
    · intro t ht
      simp [analyze_with_gemini, hc, ht]
    · intro e he
      simp [analyze_with_gemini, hc, he]
  · refine ⟨"\n    You are a strict Senior Developer Mentor acting as an AI engine for \"GitGrade\".\n" ++
      "    Your task is to evaluate a GitHub repository based on the following inputs:\n    \n" ++
      "    1. **Repository Metadata**: " ++ pyDictRepr repo_data.metadata ++ "\n" ++
      "    2. **File Structure**: \n    " ++ repo_data.structure_ ++ "\n" ++
      "    3. **README Content**: \n    " ++ repo_data.readme ++ "\n" ++
      "    4. **Dependency Files Content**:\n    ", ?_, ?_⟩
    · exact "\n\n" ++
        "    **Evaluation Criteria:**\n" ++
        "    - **Code Quality & Organization:** Look for clean folder structures (src, tests, docs), separation of concerns.\n" ++
        "    - **Documentation:** Is the README clear? Does it have setup instructions?\n" ++
        "    - **Best Practices:** Presence of .gitignore, LICENSE, CI/CD workflows, test folders.\n" ++
        "    - **Dependency Health (CRITICAL):** Analyze the provided dependency content (or lack thereof) for:\n" ++
        "        a) **Security Risk:** Are common packages severely outdated? (Infer potential CVEs if versions are very old).\n" ++
        "        b) **Maintainability:** Is a lock file (e.g., package-lock.json, Pipfile.lock) present? (Crucial for reproducible builds).\n" ++
        "        c) **Clarity:** Are dependencies specified without version pinning? (Bad practice).\n\n" ++
        "    **Output Requirement:**\n" ++
        "    Provide the response in the following specific format:\n\n" ++
        "    ### SCORE\n" ++
        "    [Provide a score out of 100 based on the quality. Be honest and critical.]\n\n" ++
        "    ### CRITICAL INSIGHTS\n" ++
        "    [A 2-3 sentence section dedicated ONLY to Dependency Health and Security Risk. Be direct.]\n\n" ++
        "    ### SUMMARY\n" ++
        "    [A short paragraph (approx 50 words) evaluating the strengths and weaknesses of the overall project, including the Dependency Health findings.]\n\n" ++
        "    ### ROADMAP\n" ++
        "    [Bulleted list of 3-5 actionable steps the student must take to improve this project. Include at least two specific actions related to Dependency Health (e.g., pinning versions, adding a lock file, or updating a specific package).]\n    \n" ++
        "    Do not be polite just for the sake of it. Give honest, constructive feedback.\n    "
    · apply String.toList_inj.mp
      simp [build_prompt, toList_append, List.append_assoc]

/-- C8 witness: the theorem at a succeeding environment, a failing
configuration and a failing generation, on a small concrete snapshot. -/
theorem analyze_with_gemini_contract_witness :
    analyze_with_gemini envOk snapDemo "key" "models/gemini-1.5-flash" = "### SCORE\n80"
    ∧ analyze_with_gemini envBad snapDemo "key" "models/gemini-1.5-flash" =
        "Error configuring Gemini API or loading model: " ++ "bad key"
    ∧ analyze_with_gemini envGenFail snapDemo "key" "models/gemini-1.5-flash" =
        "Error generating content: " ++ "boom" :=
  ⟨((analyze_with_gemini_contract envOk snapDemo "key" "models/gemini-1.5-flash").2.1
      rfl).1 "### SCORE\n80" rfl,
   (analyze_with_gemini_contract envBad snapDemo "key" "models/gemini-1.5-flash").1
      "bad key" rfl,
   ((analyze_with_gemini_contract envGenFail snapDemo "key" "models/gemini-1.5-flash").2.1
      rfl).2 "boom" rfl⟩

/-! ### C2: URL parsing (claim corrected: the owner may be empty) -/

theorem toList_slash : ("/" : String).toList = ['/'] := rfl

theorem pySplitSlash_ne_nil (l : List Char) : pySplitSlash l ≠ [] := by
  cases l with
  | nil => simp [pySplitSlash]
  | cons c cs =>
    simp only [pySplitSlash]
    split
    · simp
    · split <;> simp

theorem pySplitSlash_append (a b : List Char) :
    pySplitSlash (a ++ '/' :: b) = pySplitSlash a ++ pySplitSlash b := by
  induction a with
  | nil => simp [pySplitSlash]
  | cons c a ih =>
    by_cases hc : c = '/'
    · subst hc
      simp [pySplitSlash, ih]
    · have hb : (c == '/') = false := beq_eq_false_iff_ne.mpr hc
      rcases hsa : pySplitSlash a with _ | ⟨r, rs⟩
      · exact absurd hsa (pySplitSlash_ne_nil a)
      · simp [pySplitSlash, hb, ih, hsa]

theorem pySplitSlash_no_slash (l : List Char) (h : '/' ∉ l) : pySplitSlash l = [l] := by
  induction l with
  | nil => rfl
  | cons c cs ih =>
    have hc : ¬ c = '/' := by
      intro hc
      exact h (by simp [hc])
    have hcs : '/' ∉ cs := fun hm => h (List.mem_cons_of_mem c hm)
    have hb : (c == '/') = false := beq_eq_false_iff_ne.mpr hc
    simp [pySplitSlash, hb, ih hcs]

theorem pyRstripSlash_append_slash (x : List Char) :
    pyRstripSlash (x ++ ['/']) = pyRstripSlash x := by
  simp [pyRstripSlash, List.reverse_append, List.dropWhile_cons]

theorem pyRstripSlash_no_trailing (x l : List Char) (hne : l ≠ []) (h : '/' ∉ l) :
    pyRstripSlash (x ++ l) = x ++ l := by
  rcases List.eq_nil_or_concat l with rfl | ⟨L, b, rfl⟩
  · exact absurd rfl hne
  · have hb : ¬ b = '/' := by
      intro hbe
      exact h (by simp [List.concat_eq_append, hbe])
    have hbb : (b == '/') = false := beq_eq_false_iff_ne.mpr hb
    simp [pyRstripSlash, List.concat_eq_append, List.reverse_append, List.dropWhile_cons, hbb,
      List.append_assoc]

theorem dropWhile_head_not {α : Type} (p : α → Bool) :
    ∀ (m : List α) (c : α) (t : List α), m.dropWhile p = c :: t → p c = false := by
  intro m
  induction m with
  | nil => intro c t h; simp at h
  | cons d ds ih =>
    intro c t h
    rw [List.dropWhile_cons] at h
    by_cases hd : p d = true
    · rw [if_pos hd] at h
      exact ih c t h
    · rw [if_neg hd] at h
      cases h
      simpa using hd

theorem pySplitSlash_concat_getLast_ne_nil :
    ∀ (l : List Char) (c : Char), (c == '/') = false →
      ∀ m, (pySplitSlash (l ++ [c])).getLast? = some m → m ≠ [] := by
  intro l
  induction l with
  | nil =>
    intro c hc m hm
    simp [pySplitSlash, hc] at hm
    subst hm
    simp
  | cons d ds ih =>
    intro c hc m hm
    by_cases hd : d = '/'
    · subst hd
      have hstep : pySplitSlash ('/' :: (ds ++ [c])) = [] :: pySplitSlash (ds ++ [c]) := by
        simp [pySplitSlash]
      rw [List.cons_append, hstep] at hm
      rcases hq : pySplitSlash (ds ++ [c]) with _ | ⟨y, ys⟩
      · exact absurd hq (pySplitSlash_ne_nil _)
      · rw [hq, List.getLast?_cons_cons] at hm
        exact ih c hc m (by rw [hq]; exact hm)
    · have hdb : (d == '/') = false := beq_eq_false_iff_ne.mpr hd
      rcases hq : pySplitSlash (ds ++ [c]) with _ | ⟨r, rs⟩
      · exact absurd hq (pySplitSlash_ne_nil _)
      · have hstep : pySplitSlash (d :: (ds ++ [c])) = (d :: r) :: rs := by
          simp [pySplitSlash, hdb, hq]
        rw [List.cons_append, hstep] at hm
        rcases rs with _ | ⟨z, zs⟩
        · simp at hm
          subst hm
          simp
        · rw [List.getLast?_cons_cons] at hm
          refine ih c hc m ?_
          rw [hq, List.getLast?_cons_cons]
          exact hm

theorem parse_github_url_some_repo_ne_empty (url o r : String)
    (h : parse_github_url url = some (o, r)) : r ≠ "" := by
  unfold parse_github_url at h
  rcases hm : (url.toList.reverse).dropWhile (fun c => c == '/') with _ | ⟨c, t⟩
  · have hs : pyRstripSlash url.toList = [] := by
      simp only [pyRstripSlash, hm, List.reverse_nil]
    rw [hs] at h
    simp [pySplitSlash] at h
  · have hcb : (c == '/') = false :=
      dropWhile_head_not (fun x => x == '/') url.toList.reverse c t hm
    have hs : pyRstripSlash url.toList = t.reverse ++ [c] := by
      simp only [pyRstripSlash, hm, List.reverse_cons]
    rw [hs] at h
    rcases hrev : (pySplitSlash (t.reverse ++ [c])).reverse with _ | ⟨repo, rest⟩
    · rw [hrev] at h
      simp at h
    · rcases rest with _ | ⟨owner, rest2⟩
      · rw [hrev] at h
        simp at h
      · rw [hrev] at h
        simp only [Option.some.injEq, Prod.mk.injEq] at h
        obtain ⟨ho', hr'⟩ := h
        have hlast : (pySplitSlash (t.reverse ++ [c])).getLast? = some repo := by
          rw [← List.head?_reverse, hrev]
          rfl
        have hrepo : repo ≠ [] :=
          pySplitSlash_concat_getLast_ne_nil t.reverse c hcb repo hlast
        intro hre
        apply hrepo
        calc repo = repo.asString.toList := (List.toList_asString repo).symm
          _ = ("" : String).toList := by rw [hr', hre]
          _ = [] := rfl

/-- C2 counterexample: URL parsing can succeed with an empty owner field,
refuting the invariant that both fields are non-empty whenever parsing
succeeds: the URL https://github.com has three separator-split parts
https:, the empty string and github.com, so parsing returns the pair of
the empty owner and the repo github.com instead of failing. -/
theorem parse_github_url_empty_owner :
    parse_github_url "https://github.com" = some ("", "github.com")
    ∧ ¬ ("" : String) ≠ "" := by
  constructor
  · rfl
  · simp

/-- C2 as amended: for any URL of the canonical form with slash-free owner
and non-empty slash-free repo segments, with or without a trailing slash,
parsing yields exactly that owner and repo; a URL whose slash-stripped
form has no separator left (fewer than two parts) fails to parse; and on
any successful parse the repo field is non-empty — but the owner field may
be empty, as the counterexample shows. -/
theorem parse_github_url_spec :
    (∀ base o r : String, '/' ∉ o.toList → '/' ∉ r.toList → r ≠ "" →
      parse_github_url (base ++ "/" ++ o ++ "/" ++ r) = some (o, r)
      ∧ parse_github_url (base ++ "/" ++ o ++ "/" ++ r ++ "/") = some (o, r))
    ∧ (∀ url : String, '/' ∉ pyRstripSlash url.toList → parse_github_url url = none)
    ∧ (∀ url o r : String, parse_github_url url = some (o, r) → r ≠ "") := by
  refine ⟨?_, ?_, parse_github_url_some_repo_ne_empty⟩
  · intro base o r ho hr hrne
    have hrl : r.toList ≠ [] := by
      intro hc
      apply hrne
      rw [← String.asString_toList r, hc]
      rfl
    have hlist : (base ++ "/" ++ o ++ "/" ++ r).toList
        = (base.toList ++ '/' :: (o.toList ++ ['/'])) ++ r.toList := by
      simp [toList_append, toList_slash]
    have hstrip : pyRstripSlash ((base ++ "/" ++ o ++ "/" ++ r).toList)
        = base.toList ++ '/' :: (o.toList ++ '/' :: r.toList) := by
      rw [hlist, pyRstripSlash_no_trailing _ _ hrl hr]
      simp [List.append_assoc]
    have hsplit : pySplitSlash (pyRstripSlash ((base ++ "/" ++ o ++ "/" ++ r).toList))
        = pySplitSlash base.toList ++ ([o.toList] ++ [r.toList]) := by
      rw [hstrip, pySplitSlash_append, pySplitSlash_append,
        pySplitSlash_no_slash o.toList ho, pySplitSlash_no_slash r.toList hr]
    have hmain : parse_github_url (base ++ "/" ++ o ++ "/" ++ r) = some (o, r) := by
      unfold parse_github_url
      rw [hsplit]
      simp [List.reverse_append]
      exact ⟨String.asString_toList o, String.asString_toList r⟩
    refine ⟨hmain, ?_⟩
    have hlist2 : (base ++ "/" ++ o ++ "/" ++ r ++ "/").toList
        = (base ++ "/" ++ o ++ "/" ++ r).toList ++ ['/'] := by
      simp [toList_append, toList_slash]
    unfold parse_github_url
    rw [hlist2, pyRstripSlash_append_slash, hsplit]
    simp [List.reverse_append]
    exact ⟨String.asString_toList o, String.asString_toList r⟩
  · intro url hnos
    unfold parse_github_url
    rw [pySplitSlash_no_slash _ hnos]
    simp

/-- C2 witness: the amended theorem at the URL of octocat Hello-World,
with and without a trailing slash, and at a URL without separators. -/
theorem parse_github_url_spec_witness :
    parse_github_url ("https://github.com" ++ "/" ++ "octocat" ++ "/" ++ "Hello-World")
        = some ("octocat", "Hello-World")
    ∧ parse_github_url ("https://github.com" ++ "/" ++ "octocat" ++ "/" ++ "Hello-World" ++ "/")
        = some ("octocat", "Hello-World")
    ∧ parse_github_url "nopath" = none
    ∧ ("Hello-World" : String) ≠ "" := by
  obtain ⟨h1, h2⟩ := parse_github_url_spec.1 "https://github.com" "octocat" "Hello-World"
    (by decide) (by decide) (by decide)
  exact ⟨h1, h2, parse_github_url_spec.2.1 "nopath" (by decide),
    parse_github_url_spec.2.2 _ _ _ h1⟩
